import Mathlib

/-
Verification of the infdriven survey app (src/app.py): the session state
machine (init → survey → done), the scoring function `compute_level`, and
the payload assembly on the final page.  Python floats are modelled as ℚ,
exceptions as `Except`/`Option`, and Streamlit's `st.session_state` as an
explicit `SessionState` record threaded through the callbacks.
-/

namespace Infdriven

/-- One headline/summary pair, as built by `fetch_live_exposures` in
src/app.py (a dict with keys "headline" and "summary"). -/
structure Exposure where
  headline : String
  summary : String
deriving DecidableEq, Repr

/-- The session phase: the strings "init", "survey", "done" stored in
`st.session_state.phase`. -/
inductive Phase where
  | init
  | survey
  | done
deriving DecidableEq, Repr

/-- `NUM_EXPOSURES = 10` (src/app.py line 16), the target sample size. -/
def NUM_EXPOSURES : ℕ := 10

/-- The session-scoped mutable state of src/app.py: the keys installed in
`st.session_state` by the defaults loop (lines 47–56).  `start_score`
starts as Python `None`, hence `Option ℚ`. -/
structure SessionState where
  phase : Phase
  start_slider : ℚ
  start_score : Option ℚ
  exposures : List Exposure
  idx : ℕ
  responses : List ℚ
deriving DecidableEq, Repr

/-- The session-state defaults (src/app.py lines 47–56): phase "init",
start_slider 50.0, start_score None, exposures [], idx 0, responses []. -/
def initial_state : SessionState :=
  { phase := .init
    start_slider := 50
    start_score := none
    exposures := []
    idx := 0
    responses := [] }

/-- `begin_callback` (src/app.py lines 59–67).  The network fetch
`fetch_live_exposures` is modelled by its outcome `fetchResult`
(`.error` when the request raises, e.g. `raise_for_status`); the call to
`random.sample(live, k)` is modelled by the parameter `sample`, about
which theorems assume the contract of `random.sample` (result of length
`k`, drawn without replacement from `live`).  Python exception semantics:
line 60 (`start_score = start_slider`) executes before the fetch, so it
takes effect even when the fetch raises; the remaining assignments are
skipped and the exception propagates (the second component). -/
def begin_callback (sample : List Exposure → ℕ → List Exposure)
    (fetchResult : Except Unit (List Exposure)) (s : SessionState) :
    SessionState × Except Unit Unit :=
  let s1 := { s with start_score := some s.start_slider }
  match fetchResult with
  | .error e => (s1, .error e)
  | .ok live =>
      let sampled := sample live (min live.length NUM_EXPOSURES)
      ({ s1 with exposures := sampled, idx := 0, responses := [], phase := .survey },
       .ok ())

/-- `next_callback` (src/app.py lines 69–75).  The widget value
`st.session_state[f"slider_{i}"]` is the parameter `rating`.  It appends
the rating, increments `idx`, and switches the phase to "done" exactly
when the incremented index reaches `len(exposures)`. -/
def next_callback (rating : ℚ) (s : SessionState) : SessionState :=
  let responses := s.responses ++ [rating]
  let idx := s.idx + 1
  if idx ≥ s.exposures.length then
    { s with responses := responses, idx := idx, phase := .done }
  else
    { s with responses := responses, idx := idx }

/-- `compute_level` (src/app.py lines 78–85), over ℚ in place of Python
floats.  `sum(deltas)/len(deltas) if deltas else 0` is the conditional on
`deltas` being non-empty. -/
def compute_level (start : ℚ) (responses : List ℚ) : ℕ × String :=
  let deltas := responses.map fun r => |r - start|
  let avg : ℚ := if deltas ≠ [] then deltas.sum / (deltas.length : ℚ) else 0
  if avg > 20 then (1, "Flip-Flopper")
  else if avg > 10 then (2, "Malleable Mind")
  else if avg > 5 then (3, "Moderately Moved")
  else if avg > 2 then (4, "Steady Supporter")
  else if start ≥ 80 then (5, "Buttigieg Stan")
  else (4, "Steady Supporter")

/-- The survey page's read of the current exposure,
`st.session_state.exposures[i]` (src/app.py line 101): `none` models the
IndexError raised when `i` is out of range. -/
def survey_exposure (s : SessionState) : Option Exposure :=
  s.exposures[s.idx]?

/-- The survey page's pre-filled slider value (src/app.py line 108):
`start_score if i==0 else responses[-1]`.  `none` models the cases where
Python would raise (start_score still `None`, or `responses[-1]` on an
empty list). -/
def slider_default (s : SessionState) : Option ℚ :=
  if s.idx = 0 then s.start_score else s.responses.getLast?

/-- One PersistedRow of the payload (src/app.py lines 128–135). -/
structure Row where
  user_id : String
  initial_score : ℚ
  snippet_i : ℕ
  headline : String
  summary : String
  rating : ℚ
deriving DecidableEq, Repr

/-- The payload loop (src/app.py lines 126–135) unrolled: iterate over
`exposures` with running index `i`, reading `resp[i]`; `none` models the
IndexError raised when `resp[i]` is out of range (which aborts the page
before any insert). -/
def build_payload_from (uid : String) (start : ℚ) (responses : List ℚ) :
    ℕ → List Exposure → Option (List Row)
  | _, [] => some []
  | i, e :: es =>
      match responses[i]? with
      | none => none
      | some r =>
          (build_payload_from uid start responses (i + 1) es).map
            fun rows =>
              { user_id := uid, initial_score := start, snippet_i := i,
                headline := e.headline, summary := e.summary, rating := r } :: rows

/-- The payload assembly entry point: the loop starting at index 0. -/
def build_payload (uid : String) (start : ℚ) (exposures : List Exposure)
    (responses : List ℚ) : Option (List Row) :=
  build_payload_from uid start responses 0 exposures

/-- The ScoreEngine as §4.2 of the spec words it: `avgDelta` is the mean
of `abs(responses[i] - startingScore)`, or 0 when `responses` is empty;
thresholds checked in the exact order > 20, > 10, > 5, > 2, first match
wins, with the final tie on `startingScore >= 80`. -/
def computeLevel_spec (startingScore : ℚ) (responses : List ℚ) : ℕ × String :=
  let avgDelta : ℚ :=
    if responses = [] then 0
    else (responses.map fun r => |r - startingScore|).sum / (responses.length : ℚ)
  if avgDelta > 20 then (1, "Flip-Flopper")
  else if avgDelta > 10 then (2, "Malleable Mind")
  else if avgDelta > 5 then (3, "Moderately Moved")
  else if avgDelta > 2 then (4, "Steady Supporter")
  else if startingScore ≥ 80 then (5, "Buttigieg Stan")
  else (4, "Steady Supporter")

/-- Concrete evaluation of the scorer at start 50 and responses [55, 50]:
the deltas are 5 and 0, the average is 5/2, and the first matching
threshold is `avg > 2`, giving level 4. -/
lemma compute_level_at_50_55_50 :
    compute_level 50 [55, 50] = (4, "Steady Supporter") := by
  simp [compute_level]
  norm_num

/-- C1: for every startingScore and every list of responses,
`compute_level` returns the (level, label) pair determined by the first
matching threshold on the mean absolute delta (0 when responses is
empty), in the exact order > 20, > 10, > 5, > 2, with the final branch
split on startingScore ≥ 80 — i.e. the code agrees with the spec's
ScoreEngine on all inputs (determinism and totality are inherent: it is
a total function). -/
theorem compute_level_eq_spec (start : ℚ) (responses : List ℚ) :
    compute_level start responses = computeLevel_spec start responses := by
  cases responses with
  | nil => rfl
  | cons a l => simp [compute_level, computeLevel_spec]

/-- C2 counterexample: `compute_level 50 [55, 50]` is not
`(3, "Moderately Moved")` (the average delta 5/2 does not exceed 5). -/
theorem compute_level_50_55_50_not_level3 :
    compute_level 50 [55, 50] ≠ (3, "Moderately Moved") := by
  rw [compute_level_at_50_55_50]
  decide

/-- C2 amended: `compute_level 50 [55, 50]` returns
`(4, "Steady Supporter")`: the deltas are 5 and 0, avgDelta is 2.5,
whose first matching threshold is avgDelta > 2, giving level 4. -/
theorem compute_level_50_55_50_eq :
    compute_level 50 [55, 50] = (4, "Steady Supporter") :=
  compute_level_at_50_55_50

/-- C10: `compute_level` is invariant under permutation of the
responses list, because it depends only on the sum and the length of
the mapped absolute deltas, both permutation-invariant. -/
theorem compute_level_perm_invariant (start : ℚ) (l l' : List ℚ)
    (h : l'.Perm l) :
    compute_level start l' = compute_level start l := by
  cases l with
  | nil => rw [List.Perm.eq_nil h]
  | cons a t =>
    cases l' with
    | nil => exact absurd h.length_eq (by simp)
    | cons b t' =>
      have hs : ((b :: t').map fun r => |r - start|).sum
          = ((a :: t).map fun r => |r - start|).sum := (h.map _).sum_eq
      have hl : (b :: t').length = (a :: t).length := h.length_eq
      have h1 : ((b :: t').map fun r => |r - start|) ≠ [] := by simp
      have h2 : ((a :: t).map fun r => |r - start|) ≠ [] := by simp
      simp only [compute_level, if_pos h1, if_pos h2, List.length_map, hs, hl]

/-- C10 witness: the permutation invariance applied to the concrete
permutation [2, 1] ~ [1, 2] at starting score 50. -/
theorem compute_level_perm_invariant_witness :
    (([2, 1] : List ℚ).Perm [1, 2]) ∧
      compute_level 50 [2, 1] = compute_level 50 [1, 2] :=
  ⟨List.Perm.swap 1 2 [],
   compute_level_perm_invariant 50 [1, 2] [2, 1] (List.Perm.swap 1 2 [])⟩

/-- C3: `len(responses) == currentIndex` holds after every transition:
it holds in the initial state (both 0), immediately after a successful
`begin` (both reset to 0), and it is preserved by every `next` call,
which appends exactly one rating and increments the index by exactly
one. -/
theorem responses_length_eq_idx_invariant
    (sample : List Exposure → ℕ → List Exposure) (live : List Exposure)
    (rating : ℚ) (s t : SessionState)
    (h : t.responses.length = t.idx) :
    initial_state.responses.length = 0 ∧ initial_state.idx = 0 ∧
    (begin_callback sample (.ok live) s).1.responses = [] ∧
    (begin_callback sample (.ok live) s).1.idx = 0 ∧
    (next_callback rating t).responses = t.responses ++ [rating] ∧
    (next_callback rating t).idx = t.idx + 1 ∧
    (next_callback rating t).responses.length = (next_callback rating t).idx := by
  refine ⟨rfl, rfl, rfl, rfl, ?_, ?_, ?_⟩ <;>
    · simp only [next_callback]
      split <;> simp [h]

/-- C3 witness: the invariant statement instantiated at the empty
sampler, an empty fetch result, rating 60, and the initial state on both
sides. -/
theorem responses_length_eq_idx_invariant_witness :
    initial_state.responses.length = initial_state.idx ∧
    (initial_state.responses.length = 0 ∧ initial_state.idx = 0 ∧
      (begin_callback (fun l k => l.take k) (.ok []) initial_state).1.responses = [] ∧
      (begin_callback (fun l k => l.take k) (.ok []) initial_state).1.idx = 0 ∧
      (next_callback 60 initial_state).responses = initial_state.responses ++ [60] ∧
      (next_callback 60 initial_state).idx = initial_state.idx + 1 ∧
      (next_callback 60 initial_state).responses.length = (next_callback 60 initial_state).idx) :=
  ⟨rfl, responses_length_eq_idx_invariant (fun l k => l.take k) [] 60
    initial_state initial_state rfl⟩

/-- C4: in the Survey phase, a `next` call at
`currentIndex = len(exposures) - 1` transitions the phase to Done, and a
`next` call at `currentIndex < len(exposures) - 1` leaves the phase as
Survey. -/
theorem next_phase_transition (rating : ℚ) (s : SessionState)
    (hs : s.phase = .survey) :
    (s.idx = s.exposures.length - 1 → (next_callback rating s).phase = .done) ∧
    (s.idx < s.exposures.length - 1 → (next_callback rating s).phase = .survey) := by
  constructor
  · intro h
    have hge : s.idx + 1 ≥ s.exposures.length := by omega
    simp [next_callback, hge]
  · intro h
    have hlt : ¬ (s.idx + 1 ≥ s.exposures.length) := by omega
    simp [next_callback, hlt, hs]

/-- A concrete survey-phase session with two exposures, sitting at the
last exposure (index 1), used to instantiate hypotheses of the
state-machine theorems. -/
def survey2_state : SessionState :=
  { phase := .survey
    start_slider := 50
    start_score := some 50
    exposures := [⟨"h1", "s1"⟩, ⟨"h2", "s2"⟩]
    idx := 1
    responses := [40] }

/-- C4 witness: the transition rule applied in a concrete two-exposure
survey session sitting at the last exposure (index 1 of 2). -/
theorem next_phase_transition_witness :
    survey2_state.phase = .survey ∧
    (survey2_state.idx = survey2_state.exposures.length - 1 →
      (next_callback 45 survey2_state).phase = .done) ∧
    (survey2_state.idx < survey2_state.exposures.length - 1 →
      (next_callback 45 survey2_state).phase = .survey) :=
  ⟨rfl, (next_phase_transition 45 survey2_state rfl).1,
    (next_phase_transition 45 survey2_state rfl).2⟩

/-- C5: when the fetch succeeds with zero usable exposures, `begin` sets
`exposures` to the empty list but still transitions the phase to Survey
(not Done), and the survey page's read of `exposures[0]` then fails (an
IndexError), so the session does not resolve to Done without error as
the claim states. -/
theorem begin_empty_fetch_stuck_in_survey :
    (begin_callback (fun l k => l.take k) (.ok []) initial_state).1.phase = .survey ∧
    (begin_callback (fun l k => l.take k) (.ok []) initial_state).1.exposures = [] ∧
    (begin_callback (fun l k => l.take k) (.ok []) initial_state).1.responses = [] ∧
    survey_exposure (begin_callback (fun l k => l.take k) (.ok []) initial_state).1 = none :=
  ⟨rfl, rfl, rfl, rfl⟩

/-- C6 counterexample: a failing fetch still mutates `startingScore`:
starting from the initial state (start_score `None`), `begin` with a
failing fetch leaves the phase at Init but has already overwritten
start_score with the slider value, so the session state is not unchanged. -/
theorem begin_failure_mutates_start_score :
    (begin_callback (fun l k => l.take k) (.error ()) initial_state).1.start_score
        ≠ initial_state.start_score ∧
    (begin_callback (fun l k => l.take k) (.error ()) initial_state).1.phase = .init := by
  constructor
  · simp [begin_callback, initial_state]
  · rfl

/-- C6 amended: when the fetch inside `begin` fails, the exception
propagates, the phase and the `exposures`, `idx`, `responses` fields are
unchanged (so a session in Init stays in Init and the user may press
begin again), but `start_score` has already been overwritten with the
current slider value, since that assignment precedes the fetch. -/
theorem begin_failure_state (sample : List Exposure → ℕ → List Exposure)
    (e : Unit) (s : SessionState) :
    (begin_callback sample (.error e) s).1
        = { s with start_score := some s.start_slider } ∧
    (begin_callback sample (.error e) s).2 = .error e :=
  ⟨rfl, rfl⟩

/-- C7: assuming the `random.sample(live, k)` contract — the sample has
length `k` and is drawn without replacement from `live` (a sub-
permutation) — a successful `begin` sets `exposures` to a sample of
exactly `min(available, NUM_EXPOSURES)` items drawn without replacement
from the fetched list; in particular the sample never exceeds
`NUM_EXPOSURES`, and with 3 usable items and target 10 it has length 3. -/
theorem begin_sample_size
    (sample : List Exposure → ℕ → List Exposure) (live : List Exposure)
    (s : SessionState)
    (hlen : (sample live (min live.length NUM_EXPOSURES)).length
        = min live.length NUM_EXPOSURES)
    (hsub : List.Subperm (sample live (min live.length NUM_EXPOSURES)) live) :
    (begin_callback sample (.ok live) s).1.exposures.length
        = min live.length NUM_EXPOSURES ∧
    (begin_callback sample (.ok live) s).1.exposures.length ≤ NUM_EXPOSURES ∧
    List.Subperm (begin_callback sample (.ok live) s).1.exposures live ∧
    (live.length = 3 →
      (begin_callback sample (.ok live) s).1.exposures.length = 3) := by
  have hexp : (begin_callback sample (.ok live) s).1.exposures
      = sample live (min live.length NUM_EXPOSURES) := rfl
  refine ⟨by rw [hexp, hlen], by rw [hexp, hlen]; exact min_le_right _ _,
    by rw [hexp]; exact hsub, fun h3 => by rw [hexp, hlen, h3]; decide⟩

/-- A concrete three-item fetched list, standing in for an
ExposureProvider stub that returns exactly 3 usable items. -/
def live3 : List Exposure :=
  [⟨"h1", "s1"⟩, ⟨"h2", "s2"⟩, ⟨"h3", "s3"⟩]

/-- C7 witness: the sampling bound applied to the take-based sampler on
a concrete 3-item fetched list with target 10, yielding length 3. -/
theorem begin_sample_size_witness :
    ((live3.take (min live3.length NUM_EXPOSURES)).length
        = min live3.length NUM_EXPOSURES) ∧
    List.Subperm (live3.take (min live3.length NUM_EXPOSURES)) live3 ∧
    ((begin_callback (fun l k => l.take k) (.ok live3) initial_state).1.exposures.length
        = min live3.length NUM_EXPOSURES ∧
      (begin_callback (fun l k => l.take k) (.ok live3) initial_state).1.exposures.length
        ≤ NUM_EXPOSURES ∧
      List.Subperm
        (begin_callback (fun l k => l.take k) (.ok live3) initial_state).1.exposures live3 ∧
      (live3.length = 3 →
        (begin_callback (fun l k => l.take k) (.ok live3) initial_state).1.exposures.length = 3)) :=
  ⟨by decide, (List.take_sublist _ _).subperm,
    begin_sample_size (fun l k => l.take k) live3 initial_state (by decide)
      ((List.take_sublist _ _).subperm)⟩

/-- C8: under the session invariant `len(responses) == currentIndex`,
the survey page's pre-filled rating is `start_score` at index 0 and, at
any index i > 0, the last collected response, which is exactly
`responses[i-1]`. -/
theorem slider_default_carry_forward (s : SessionState)
    (hinv : s.responses.length = s.idx) :
    (s.idx = 0 → slider_default s = s.start_score) ∧
    (0 < s.idx → slider_default s = s.responses[s.idx - 1]?) := by
  constructor
  · intro h
    simp [slider_default, h]
  · intro h
    have hne : s.idx ≠ 0 := by omega
    simp only [slider_default, if_neg hne]
    rw [List.getLast?_eq_getElem?, hinv]

/-- C8 witness: the carry-forward rule applied to the concrete
two-exposure survey session at index 1: the pre-filled rating equals
`responses[0]`. -/
theorem slider_default_carry_forward_witness :
    survey2_state.responses.length = survey2_state.idx ∧
    ((survey2_state.idx = 0 → slider_default survey2_state = survey2_state.start_score) ∧
      (0 < survey2_state.idx →
        slider_default survey2_state = survey2_state.responses[survey2_state.idx - 1]?)) :=
  ⟨rfl, slider_default_carry_forward survey2_state rfl⟩

/-- The payload row count, index-shifted: starting the loop at index
`i`, the assembly succeeds exactly when the responses list covers every
index `i, ..., i + len(es) - 1`, and then produces one row per exposure. -/
lemma build_payload_from_length (uid : String) (start : ℚ)
    (responses : List ℚ) (es : List Exposure) :
    ∀ i : ℕ, (build_payload_from uid start responses i es).map List.length
      = if es.length ≤ responses.length - i then some es.length else none := by
  induction es with
  | nil =>
      intro i
      simp [build_payload_from]
  | cons e es ih =>
      intro i
      by_cases h : i < responses.length
      · rw [build_payload_from, List.getElem?_eq_getElem h]
        have hrec := ih (i + 1)
        cases hb : build_payload_from uid start responses (i + 1) es with
        | none =>
            have hc : ¬ (es.length ≤ responses.length - (i + 1)) := by
              intro hc
              rw [hb, if_pos hc] at hrec
              exact Option.noConfusion hrec
            rw [if_neg (show ¬ ((e :: es).length ≤ responses.length - i) by
              simp only [List.length_cons]; omega)]
            rfl
        | some rows =>
            have hc : es.length ≤ responses.length - (i + 1) := by
              by_contra hc
              rw [hb, if_neg hc] at hrec
              exact Option.noConfusion hrec
            rw [hb, if_pos hc] at hrec
            have hrows : rows.length = es.length := by
              simpa using hrec
            rw [if_pos (show (e :: es).length ≤ responses.length - i by
              simp only [List.length_cons]; omega)]
            simp [hrows]
      · rw [build_payload_from, List.getElem?_eq_none (by omega)]
        rw [if_neg (show ¬ ((e :: es).length ≤ responses.length - i) by
          simp only [List.length_cons]; omega)]
        rfl

/-- C9 counterexample: with one exposure and two responses the lengths
differ, yet payload assembly succeeds without signalling any error,
producing a row set built from only the shorter sequence (one row). -/
theorem build_payload_truncates :
    (([⟨"h", "s"⟩] : List Exposure).length ≠ ([40, 60] : List ℚ).length) ∧
    build_payload "u" 50 [⟨"h", "s"⟩] [40, 60]
      = some [{ user_id := "u", initial_score := 50, snippet_i := 0,
                headline := "h", summary := "s", rating := 40 }] :=
  ⟨by decide, rfl⟩

/-- C9 amended: payload assembly fails (a precondition error, modelled
as `none`) exactly when the responses list is shorter than the
exposures list; whenever the responses list is at least as long —
including strictly longer, a mismatch — it silently succeeds with one
row per exposure, truncating to the exposures list. -/
theorem build_payload_length (uid : String) (start : ℚ)
    (exposures : List Exposure) (responses : List ℚ) :
    (build_payload uid start exposures responses).map List.length
      = if exposures.length ≤ responses.length then some exposures.length
        else none := by
  have h := build_payload_from_length uid start responses exposures 0
  rw [Nat.sub_zero] at h
  exact h

end Infdriven
